import Mathlib

/-!
Verification development for the pyp2p-rdv repository.

Shallow embedding of the rendezvous store (src/rendezvous/peer_db.py,
src/rendezvous/request_handler.py) and of the client connection layer
(src/client/peer_table.py, src/client/peer_connection.py,
src/client/message_router.py, src/client/peer_server.py,
src/client/p2p_client.py).

Python floats and datetimes are modelled over exact arithmetic (ℚ for
time.time() instants, integer microseconds for datetime values); machine
I/O (sockets, files) is modelled by explicit state values and by the
Except monad for raised exceptions.
-/

namespace PyP2P

/-! ## Datetime model

The repository's rendezvous record type lives in a `models` module that is
not part of the source tree; only its callers are.  The spec says records
carry datetimes that are serialized as ISO-8601 strings and parsed back on
load. -/

/-- Modelled from the spec: a Python `datetime` value (module `datetime`,
an external collaborator of this repository).  Represented by its epoch
microsecond count, which is the exact precision of Python datetimes. -/
structure Datetime where
  micros : Nat
deriving DecidableEq, Repr

/-- One decimal digit rendered as a character. -/
def digitChar10 (d : Nat) : Char := Char.ofNat (48 + d)

/-- Modelled from the spec: `datetime.isoformat()`, the serialization the
store writes ("ISO-8601 timestamps").  Modelled as an injective rendering
of the epoch microsecond count as a digit string; the property the proofs
use is the one the real pair satisfies: `fromisoformat (isoformat d) = d`. -/
def Datetime.isoformat (d : Datetime) : String :=
  if d.micros = 0 then "0"
  else String.mk ((Nat.digits 10 d.micros).map digitChar10)

/-- Modelled from the spec: `datetime.fromisoformat`, which raises on any
string that is not a serialized datetime.  Inverse of `Datetime.isoformat`;
`none` models the raised `ValueError`. -/
def Datetime.fromisoformat (s : String) : Option Datetime :=
  if s.data ≠ [] ∧ s.data.all Char.isDigit then
    some ⟨Nat.ofDigits 10 (s.data.map (fun c => c.toNat - 48))⟩
  else none

/-- Modelled from the spec: `datetime.fromtimestamp` on a numeric epoch
value (peer_db.py line 42 feeds it ints or floats loaded from JSON; the
JSON model below carries integers). -/
def Datetime.fromtimestamp (n : Int) : Datetime := ⟨n.toNat * 1000000⟩

/-- Python `s.endswith("Z")`: for the one-character suffix this is the
test on the last character. -/
def endsWithZ (s : String) : Bool := s.data.getLast? = some 'Z'

/-! ## Rendezvous store (src/rendezvous/peer_db.py)

The record type `PeerRecord` itself lives in the repository's `models`
module, which is absent from the source tree (peer_db.py and
request_handler.py import it). -/

/-- Modelled from the spec: `PeerRecord` from the missing `models` module —
"{ip, port, name, namespace, ttl, registered_at, observed_ip,
observed_port}".  peer_db.py calls the registered_at field `timestamp`
(the key it serializes and converts), so that name is kept here.
Python dataclass construction does not type-check field values; the model
uses the types every record created by the system carries. -/
structure PeerRecord where
  ip : String
  port : Int
  name : String
  nspace : String
  ttl : Int
  timestamp : Datetime
  observed_ip : String
  observed_port : Option Int
deriving DecidableEq, Repr

/-- Modelled from the spec: `PeerRecord.is_expired` from the missing
`models` module — a record "expires when `now - registered_at > ttl`"
(ttl in seconds, datetimes in microseconds). -/
def PeerRecord.isExpired (now : Datetime) (r : PeerRecord) : Bool :=
  decide ((now.micros : Int) - (r.timestamp.micros : Int) > r.ttl * 1000000)

/-- JSON values, as produced by Python's `json` module (an external
collaborator).  Numbers are integers: every number the store writes is an
int.  Object keys are unique, as `json.load` collapses duplicates. -/
inductive Json where
  | null
  | bool (b : Bool)
  | num (n : Int)
  | str (s : String)
  | arr (xs : List Json)
  | obj (kvs : List (String × Json))

/-- Content of the on-disk peers file, as seen by `PeerDatabase._load`:
the file may be absent, hold text that `json.load` rejects
(`JSONDecodeError`), or hold a parsed JSON value. -/
inductive FileContent where
  | missing
  | notJson
  | json (j : Json)

/-- Look up a key in a JSON object (`dict.get`). -/
def jsonGet (kvs : List (String × Json)) (k : String) : Option Json :=
  match kvs with
  | [] => none
  | (k2, v) :: rest => if k2 = k then some v else jsonGet rest k

/-- peer_db.py lines 32-43: conversion of the `timestamp` value — an ISO
string goes through `fromisoformat` after the trailing-Z rewrite (a parse
failure raises), a numeric epoch through `fromtimestamp`; anything else
leaves the field as a non-datetime (the typed model treats that as the
error it later provokes). -/
def parseTimestampJson (tsj : Json) : Except String Datetime :=
  match tsj with
  | .str s =>
    let s2 := if endsWithZ s then s.dropRight 1 ++ "+00:00" else s
    match Datetime.fromisoformat s2 with
    | some d => .ok d
    | Option.none => .error "ValueError: invalid isoformat string"
  | .num n => .ok (Datetime.fromtimestamp n)
  | _ => .error "TypeError: timestamp is not a datetime"

/-- The `observed_port` value: null or an int. -/
def parseObservedPort (opj : Json) : Except String (Option Int) :=
  match opj with
  | .null => .ok Option.none
  | .num n => .ok (some n)
  | _ => .error "TypeError: observed_port has an unexpected type"

/-- `PeerRecord(**data)` accepts exactly the record's field names, each
once. -/
def okRecordKeys (keys : List String) : Bool :=
  decide (keys.length = 8 ∧ keys.Nodup ∧
    keys ⊆ ["ip", "port", "name", "namespace", "ttl", "timestamp",
            "observed_ip", "observed_port"])

/-- peer_db.py lines 30-45: one element of the loaded JSON array becomes a
`PeerRecord`: the `timestamp` value is converted, then `PeerRecord(**data)`
requires exactly the record's field names as keys.  `Except.error` models
the uncaught exception (`TypeError` / `ValueError`) that such an element
raises. -/
def parsePeerElement (j : Json) : Except String PeerRecord :=
  match j with
  | .obj kvs =>
    if okRecordKeys (kvs.map Prod.fst) then
      match jsonGet kvs "ip", jsonGet kvs "port", jsonGet kvs "name",
          jsonGet kvs "namespace", jsonGet kvs "ttl", jsonGet kvs "timestamp",
          jsonGet kvs "observed_ip", jsonGet kvs "observed_port" with
      | some (.str ip), some (.num port), some (.str name), some (.str nsp),
          some (.num ttl), some tsj, some (.str oip), some opj =>
        match parseTimestampJson tsj, parseObservedPort opj with
        | .ok d, .ok o => .ok ⟨ip, port, name, nsp, ttl, d, oip, o⟩
        | .error e, _ => .error e
        | _, .error e => .error e
      | _, _, _, _, _, _, _, _ => .error "TypeError: bad PeerRecord fields"
    else .error "TypeError: unexpected keyword argument"
  | _ => .error "ValueError: array element is not an object"

/-- The loading loop (peer_db.py lines 29-45): elements are converted in
order; the first failing element raises. -/
def parseAllElements : List Json → Except String (List PeerRecord)
  | [] => .ok []
  | x :: xs =>
    match parsePeerElement x, parseAllElements xs with
    | .ok r, .ok rs => .ok (r :: rs)
    | .error e, _ => .error e
    | _, .error e => .error e

/-- `PeerDatabase._load` (peer_db.py lines 17-48): a missing file and a
file whose text fails JSON decoding both give the empty table; a decoded
JSON value is iterated and each element converted, any conversion failure
raising out of `_load` (`Except.error`).  A decoded value that is not a
list raises on iteration, except the empty object and empty string, whose
iteration yields no elements. -/
def loadDb (content : FileContent) : Except String (List PeerRecord) :=
  match content with
  | .missing => .ok []
  | .notJson => .ok []
  | .json (.arr xs) => parseAllElements xs
  | .json (.obj []) => .ok []
  | .json (.str "") => .ok []
  | .json (.obj (_ :: _)) => .error "ValueError: dictionary update sequence"
  | .json (.str _) => .error "ValueError: dictionary update sequence"
  | .json _ => .error "TypeError: object is not iterable"

/-- `PeerDatabase._save` (peer_db.py lines 51-74): each record's fields are
serialized, the timestamp as its `isoformat` string, and the list is
dumped as a JSON array (keys sorted by `sort_keys=True`). -/
def recordToJson (r : PeerRecord) : Json :=
  .obj [("ip", .str r.ip), ("name", .str r.name), ("namespace", .str r.nspace),
        ("observed_ip", .str r.observed_ip),
        ("observed_port", match r.observed_port with
          | some n => .num n
          | none => .null),
        ("port", .num r.port), ("timestamp", .str r.timestamp.isoformat),
        ("ttl", .num r.ttl)]

/-- The file content `PeerDatabase._save` writes for a table. -/
def saveDb (db : List PeerRecord) : FileContent :=
  .json (.arr (db.map recordToJson))

/-- `PeerDatabase._sweep` (peer_db.py lines 76-81): drop expired records. -/
def sweepDb (now : Datetime) (db : List PeerRecord) : List PeerRecord :=
  db.filter (fun p => !p.isExpired now)

/-- `PeerDatabase.get_peers` (peer_db.py lines 98-102): sweep, then return
all records or those of the requested namespace; the sweep is the only
mutation.  `none` and the empty string are both falsy for the namespace
argument.  Returns (result list, table after the call). -/
def getPeers (now : Datetime) (nspace : Option String) (db : List PeerRecord) :
    List PeerRecord × List PeerRecord :=
  let swept := sweepDb now db
  match nspace with
  | none => (swept, swept)
  | some s => if s = "" then (swept, swept)
      else (swept.filter (fun p => p.nspace = s), swept)

/-! ## Rendezvous request handler (src/rendezvous/request_handler.py) -/

/-- A Python value as it arrives in a request's `args` dict (decoded
JSON): string, int, float, bool or None. -/
inductive Val where
  | str (s : String)
  | int (n : Int)
  | num (q : ℚ)
  | bool (b : Bool)
  | none
deriving DecidableEq, Repr

/-- Python `str.strip()` on a character list: surrounding whitespace
removed. -/
def pyStrTrim (l : List Char) : List Char :=
  ((l.dropWhile Char.isWhitespace).reverse.dropWhile Char.isWhitespace).reverse

/-- The value of a non-empty all-digit character sequence. -/
def pyDigitsVal (l : List Char) : Option Nat :=
  if l ≠ [] ∧ l.all Char.isDigit then
    some (Nat.ofDigits 10 ((l.map (fun c => c.toNat - 48)).reverse))
  else Option.none

/-- Python `int(s)` on a string: an optionally signed decimal integer
after stripping surrounding whitespace (numeric-literal underscores are
not modelled); anything else raises `ValueError` (`Option.none`). -/
def pyIntOfString (s : String) : Option Int :=
  match pyStrTrim s.data with
  | '-' :: rest => (pyDigitsVal rest).map (fun n => -(n : Int))
  | '+' :: rest => (pyDigitsVal rest).map (fun n => (n : Int))
  | t => (pyDigitsVal t).map (fun n => (n : Int))

/-- Python `int(x)`: ints pass through, bools map to 0/1, floats truncate
toward zero, strings parse via `pyIntOfString`, and anything else raises
(`Option.none` models the raised `ValueError`/`TypeError`). -/
def pyInt (v : Val) : Option Int :=
  match v with
  | .int n => some n
  | .bool b => some (if b then 1 else 0)
  | .num q => some (if q < 0 then ⌈q⌉ else ⌊q⌋)
  | .str s => pyIntOfString s
  | .none => Option.none

/-- The args of a REGISTER request; `Option.none` is an absent key
(`args.get`), `Val.none` is JSON null. -/
structure RegisterArgs where
  nspace : Option Val
  name : Option Val
  port : Option Val
  ttl : Option Val

/-- Outcome of `RequestHandler.handle` for REGISTER: the OK payload
(status, clamped ttl, observed address) or a structured error code. -/
inductive RegisterResponse where
  | ok (ttl : Int) (observed_ip : String) (observed_port : Option Int)
  | err (code : String)
deriving DecidableEq, Repr

/-- The namespace condition the handler rejects with `bad_namespace`
(request_handler.py line 38): `not isinstance(namespace, str) or not
namespace or len(namespace) > 64`. -/
def nsInvalid (v : Val) : Bool :=
  match v with
  | .str s => decide (s = "" ∨ s.length > 64)
  | _ => true

/-- The port condition the handler rejects with `bad_port`
(request_handler.py lines 41-47): `int(port)` raises, or the converted
value is outside [1, 65535]. -/
def portInvalid (v : Val) : Bool :=
  match pyInt v with
  | Option.none => true
  | some p => decide (p < 1 ∨ p > 65535)

/-- `RequestHandler.handle`, REGISTER branch (request_handler.py lines
16-73): convert ttl with `int()` (default 7200), rejecting with `bad_ttl`
when the conversion raises, else clamping to [1, 86400]; then reject a
bad namespace with `bad_namespace`; then reject a bad port with
`bad_port`; otherwise build and store the record and answer OK.  (The
record append and persistence are side effects on the `PeerDatabase` not
needed by the claims over this function.) -/
def handleRegister (args : RegisterArgs) (client_ip : String)
    (observed_port : Option Int) : RegisterResponse :=
  match pyInt (args.ttl.getD (.int 7200)) with
  | Option.none => .err "bad_ttl"
  | some t0 =>
    let ttl := if t0 < 1 ∨ t0 > 86400 then max 1 (min t0 86400) else t0
    if nsInvalid (args.nspace.getD .none) then .err "bad_namespace"
    else if portInvalid (args.port.getD .none) then .err "bad_port"
    else .ok ttl client_ip observed_port

/-- One entry of a DISCOVER response (request_handler.py lines 80-88). -/
structure DiscoverEntry where
  ip : String
  port : Int
  name : String
  nspace : String
  ttl : Int
  observed_ip : String
  observed_port : Option Int
deriving DecidableEq, Repr

/-- Projection of a stored record onto its DISCOVER response entry. -/
def PeerRecord.toEntry (p : PeerRecord) : DiscoverEntry :=
  ⟨p.ip, p.port, p.name, p.nspace, p.ttl, p.observed_ip, p.observed_port⟩

/-- `RequestHandler.handle`, DISCOVER branch (request_handler.py lines
76-92): `get_peers` sweeps and filters, and each returned record is
projected onto its response fields.  Returns (response entries, table
after the call). -/
def handleDiscover (now : Datetime) (nspace : Option String)
    (db : List PeerRecord) : List DiscoverEntry × List PeerRecord :=
  let res := getPeers now nspace db
  (res.1.map PeerRecord.toEntry, res.2)

/-! ## Client peer table (src/client/state.py, src/client/peer_table.py)

`time.time()` instants and datetimes handled as plain values on the client
side are both modelled as exact rationals (seconds). -/

/-- `PeerInfo` (state.py lines 9-22), a `slots=True` dataclass: these are
the only attributes its instances have. -/
structure PeerInfo where
  peer_id : String
  address : String
  port : Int
  nspace : String
  status : String := "UNKNOWN"
  last_seen_at : Option ℚ := Option.none
  average_rtt_ms : Option ℚ := Option.none
  reconnect_attempts : Int := 0
  supports_ack : Bool := true
  features : List String := []
deriving DecidableEq, Repr

/-- The peer table's dict, insertion-ordered, keyed by peer_id. -/
abbrev PeerTable := List (String × PeerInfo)

/-- First-match association-list lookup (`dict` lookup). -/
def lookupKey {α : Type} (k : String) : List (String × α) → Option α
  | [] => Option.none
  | (k2, v) :: rest => if k2 = k then some v else lookupKey k rest

/-- Remove the first entry with the given key (`dict.pop`). -/
def eraseKey {α : Type} (k : String) : List (String × α) → List (String × α)
  | [] => []
  | (k2, v) :: rest => if k2 = k then rest else (k2, v) :: eraseKey k rest

/-- peer_table.py lines 39-46: how an existing entry is refreshed from an
incoming peer: address, port, namespace and last_seen_at are taken from
the incoming peer, the status only when the existing one is not
CONNECTED. -/
def mergePeer (peer ex : PeerInfo) : PeerInfo :=
  { ex with
    address := peer.address
    port := peer.port
    nspace := peer.nspace
    last_seen_at := peer.last_seen_at
    status := if ex.status ≠ "CONNECTED" then peer.status else ex.status }

/-- `PeerTable.upsert_peer` (peer_table.py lines 27-47): insert an absent
peer (returning True, "new"); refresh an existing entry via `mergePeer`
(returning False). -/
def upsertPeer (peer : PeerInfo) (t : PeerTable) : Bool × PeerTable :=
  match lookupKey peer.peer_id t with
  | Option.none => (true, t ++ [(peer.peer_id, peer)])
  | some _ =>
    (false, t.map (fun kv =>
      if kv.1 = peer.peer_id then (kv.1, mergePeer peer kv.2) else kv))

/-! ## Reconciliation loop (src/client/p2p_client.py lines 272-319) -/

/-- The orchestrator state `reconcile_peer_connections` reads: own id,
configured attempt budget, and the ids holding a live connection. -/
structure ReconcileEnv where
  selfId : String
  maxReconnectAttempts : Int
  connections : List String

/-- One iteration of the `reconcile_peer_connections` loop for one peer
(p2p_client.py lines 281-316).  Self, already-connected, unreachable
(falsy address or port) and over-budget peers are skipped.  A peer passing
every guard reaches line 297, `peer.last_connection_attempt or 0` — but
`PeerInfo` is a `slots=True` dataclass with no `last_connection_attempt`
attribute and nothing has ever set one, so the attribute read raises
`AttributeError` (modelled as `Except.error`), before any backoff
comparison or connection attempt can happen. -/
def reconcileStep (env : ReconcileEnv) (peer : PeerInfo) : Except String Unit :=
  if peer.peer_id = env.selfId then .ok ()
  else if env.connections.contains peer.peer_id then .ok ()
  else if peer.address = "" ∨ peer.port = 0 then .ok ()
  else if peer.reconnect_attempts ≥ env.maxReconnectAttempts then .ok ()
  else .error "AttributeError: PeerInfo object has no attribute last_connection_attempt"

/-- `reconcile_peer_connections` over the snapshot of known peers: the
loop body runs until its first uncaught exception. -/
def reconcilePeerConnections (env : ReconcileEnv) :
    List PeerInfo → Except String Unit
  | [] => .ok ()
  | p :: rest =>
    match reconcileStep env p with
    | .ok _ => reconcilePeerConnections env rest
    | .error e => .error e

/-! ## PeerConnection PONG handling (src/client/peer_connection.py) -/

/-- The timestamp field of a PONG as the reader sees it: a JSON number or
a string. -/
inductive PongTs where
  | num (q : ℚ)
  | str (s : String)
deriving DecidableEq, Repr

/-- The fields of a PONG message `_handle_pong` reads. -/
structure PongMsg where
  msg_id : Option String
  timestamp : Option PongTs
deriving DecidableEq, Repr

/-- The per-connection state `_handle_pong` touches, together with the
`PeerInfo` it mutates. -/
structure ConnState where
  pendingPings : List (String × ℚ)
  rttSamples : List ℚ
  lastPongTime : Option ℚ
  peer : PeerInfo
deriving DecidableEq, Repr

/-- peer_connection.py lines 220-228: a string PONG timestamp goes through
`fromisoformat` (with the trailing-Z rewrite) and `.timestamp()`; failure
to parse abandons the sample. -/
def isoToSeconds (s : String) : Option ℚ :=
  let s2 := if endsWithZ s then s.dropRight 1 ++ "+00:00" else s
  (Datetime.fromisoformat s2).map (fun d => (d.micros : ℚ) / 1000000)

/-- peer_connection.py lines 212-230, the fallback when the PONG matches
no pending PING: derive the send time from the echoed timestamp, or give
up (`none` = the handler returns without touching the state). -/
def pongFallback (msg : PongMsg) (now : ℚ) (pending : List (String × ℚ)) :
    Option (ℚ × List (String × ℚ)) :=
  match msg.timestamp with
  | Option.none => Option.none
  | some (.str s) => (isoToSeconds s).map (fun sent => (now - sent, pending))
  | some (.num q) => some (now - q, pending)

/-- peer_connection.py lines 206-230: the RTT sample a PONG yields and the
pending-ping map after it.  A truthy msg_id matching a pending PING pops
that entry (the pop persists even when the sample is later discarded);
otherwise the echoed-timestamp fallback applies. -/
def pongRtt (msg : PongMsg) (now : ℚ) (pending : List (String × ℚ)) :
    Option (ℚ × List (String × ℚ)) :=
  match msg.msg_id with
  | some id =>
    if id ≠ "" then
      match lookupKey id pending with
      | some sent => some (now - sent, eraseKey id pending)
      | Option.none => pongFallback msg now pending
    else pongFallback msg now pending
  | Option.none => pongFallback msg now pending

/-- peer_connection.py lines 232-253: the sanity check (`rtt < 0 or
rtt > 60` returns, keeping everything unchanged) and, for an accepted
sample, the ring append (`pop(0)` beyond 10 entries), the EMA update of
the peer's `average_rtt_ms` with alpha 0.3 (in milliseconds), and the
last_pong / last_seen updates. -/
def applySample (rtt : ℚ) (now : ℚ) (st : ConnState) : ConnState :=
  if rtt < 0 ∨ rtt > 60 then st
  else
    let samples0 := st.rttSamples ++ [rtt]
    let samples := if samples0.length > 10 then samples0.tail else samples0
    let rtt_ms := rtt * 1000
    let avg := match st.peer.average_rtt_ms with
      | Option.none => rtt_ms
      | some prev => (3 : ℚ)/10 * rtt_ms + (7 : ℚ)/10 * prev
    { st with
      rttSamples := samples
      lastPongTime := some now
      peer := { st.peer with average_rtt_ms := some avg, last_seen_at := some now } }

/-- `PeerConnection._handle_pong` (peer_connection.py lines 203-259). -/
def handlePong (msg : PongMsg) (now : ℚ) (st : ConnState) : ConnState :=
  match pongRtt msg now st.pendingPings with
  | Option.none => st
  | some (rtt, pending) => applySample rtt now { st with pendingPings := pending }

/-- `PeerConnection.get_metrics` (peer_connection.py lines 261-272): the
connection average is the arithmetic mean of the ring (0 when empty). -/
def getMetricsAvg (st : ConnState) : ℚ :=
  if st.rttSamples.isEmpty then 0 else st.rttSamples.sum / st.rttSamples.length

/-! ## MessageRouter (src/client/message_router.py) -/

/-- `MessageRecord` (state.py lines 25-42). -/
structure MessageRecord where
  msg_id : String
  src : String
  dst : String
  payload_preview : String
  timestamp : ℚ
  acknowledged : Bool := false
  ack_timestamp : Option ℚ := Option.none
  error : Option String := Option.none
deriving DecidableEq, Repr

/-- The pending-ACK dict, keyed by msg_id. -/
abbrev PendingAcks := List (String × MessageRecord)

/-- message_router.py line 84: a pending record has timed out once more
than `ACK_TIMEOUT_SECONDS = 5.0` seconds have elapsed since its send. -/
def ackExpired (now : ℚ) (r : MessageRecord) : Bool :=
  decide (now - r.timestamp > 5)

/-- `MessageRouter._check_ack_timeouts` (message_router.py lines 76-90):
collect every pending entry older than the timeout, evict it and set its
record's error.  Returns (pending map after the sweep, the records the
sweep mutated). -/
def checkAckTimeouts (now : ℚ) (pending : PendingAcks) :
    PendingAcks × List MessageRecord :=
  (pending.filter (fun p => !ackExpired now p.2),
   (pending.filter (fun p => ackExpired now p.2)).map
     (fun p => { p.2 with error := some "ACK timeout (5s)" }))

/-- `MessageRouter._handle_ack` (message_router.py lines 286-299): pop the
matching pending record, if any, and mark it acknowledged with the ACK
arrival time; an unmatched ACK changes nothing.  Returns (pending map
after, the record the ACK mutated, if any). -/
def handleAck (msg_id : String) (now : ℚ) (pending : PendingAcks) :
    PendingAcks × Option MessageRecord :=
  match lookupKey msg_id pending with
  | Option.none => (pending, Option.none)
  | some r =>
    (eraseKey msg_id pending,
     some { r with acknowledged := true, ack_timestamp := some now })

/-! ## Outbound send path (peer_connection.py lines 274-285,
message_router.py lines 92-133) -/

/-- peer_connection.py line 18: the 32 KiB frame limit. -/
def MAX_LINE_BYTES : Nat := 32 * 1024

/-- The state of a peer socket relevant to sending: whether it has been
closed, and whether its next `sendall` raises `OSError`. -/
structure SockState where
  closed : Bool
  failSend : Bool
deriving DecidableEq, Repr

/-- `PeerConnection._send_raw` (peer_connection.py lines 280-285):
`sendall`'s `OSError` is caught, logged and answered by closing the
connection; nothing is re-raised. -/
def sendRaw (sock : SockState) : SockState :=
  if sock.failSend then { sock with closed := true } else sock

/-- `PeerConnection.send_json` (peer_connection.py lines 274-278) applied
to a message whose encoded frame is `encodedLen` bytes (the JSON encoding
itself is an external collaborator; its length is taken as input): an
oversized frame raises `ValueError` before anything is sent, every other
frame goes through `_send_raw`, which never raises. -/
def sendJson (encodedLen : Nat) (sock : SockState) : Except String SockState :=
  if encodedLen > MAX_LINE_BYTES then .error "Payload excede 32KiB"
  else .ok (sendRaw sock)

/-- message_router.py lines 106: `payload[:40] if len(payload) > 40 else
payload`. -/
def previewOf (payload : String) : String :=
  if payload.length > 40 then payload.take 40 else payload

/-- What `MessageRouter.send` left behind. -/
structure SendResult where
  record : Option MessageRecord
  history : List MessageRecord
  pending : PendingAcks
  sock : SockState
deriving DecidableEq, Repr

/-- `MessageRouter.send` (message_router.py lines 92-133): no connection
gives no record; otherwise a fresh record (no error) and a SEND frame are
built, and the `try` around `send_json` either appends the record to the
outbound history (registering it as pending when require_ack) or — only
when `send_json` raised — stores the exception text in `record.error`
without appending. -/
def routerSend (connected : Bool) (msgId src dst payload : String) (now : ℚ)
    (requireAck : Bool) (encodedLen : Nat) (sock : SockState)
    (history : List MessageRecord) (pending : PendingAcks) : SendResult :=
  if !connected then ⟨Option.none, history, pending, sock⟩
  else
    let record : MessageRecord :=
      { msg_id := msgId, src := src, dst := dst,
        payload_preview := previewOf payload, timestamp := now }
    match sendJson encodedLen sock with
    | .ok sock2 =>
      ⟨some record, history ++ [record],
       if requireAck then pending ++ [(msgId, record)] else pending, sock2⟩
    | .error e => ⟨some { record with error := some e }, history, pending, sock⟩

/-! ## Inbound handshake (src/client/peer_server.py lines 83-138,
src/client/p2p_client.py lines 148-183) -/

/-- The fields of a HELLO frame `PeerServer._handle_connection` looks at.
`listen_port` stands for any port-like field a HELLO might carry: the
handler never reads one (the wire HELLO has no listen port). -/
structure HelloMsg where
  type : String
  peer_id : Val
  version : String
  features : List String
  listen_port : Option Int
deriving DecidableEq, Repr

/-- `peer_id.split("@")[-1]` (peer_server.py line 112). -/
def namespaceOf (pid : String) : String :=
  ((pid.splitOn "@").getLast?).getD ""

/-- `PeerServer._handle_connection` (peer_server.py lines 83-138), after a
frame has been read and decoded: a non-HELLO type or a non-string peer_id
closes the socket; otherwise a `PeerInfo` is built from the socket's
observed source address `addr` (ip, ephemeral source port) and the
declared fields, with status CONNECTED, and upserted into the peer table
before HELLO_OK is sent and the orchestrator callback runs.  Returns
(table after, the PeerInfo handed to the callback, if any). -/
def handleConnection (addr : String × Int) (msg : HelloMsg) (now : ℚ)
    (table : PeerTable) : PeerTable × Option PeerInfo :=
  if msg.type ≠ "HELLO" then (table, Option.none)
  else
    match msg.peer_id with
    | .str pid =>
      let pi : PeerInfo :=
        { peer_id := pid, address := addr.1, port := addr.2,
          nspace := namespaceOf pid, status := "CONNECTED",
          last_seen_at := some now, features := msg.features }
      ((upsertPeer pi table).2, some pi)
    | _ => (table, Option.none)

/-- `P2PClient._handle_inbound_socket` (p2p_client.py lines 148-183): a
peer_id that already has a live connection is rejected (HELLO_REJECT +
close) without touching the table; otherwise the peer is upserted again
and the connection registered.  Returns (table after, accepted?). -/
def handleInboundSocket (connections : List String) (pi : PeerInfo)
    (table : PeerTable) : PeerTable × Bool :=
  if connections.contains pi.peer_id then (table, false)
  else ((upsertPeer pi table).2, true)

/-- The whole inbound path: PeerServer handshake, then the orchestrator's
accept callback. -/
def inboundFlow (connections : List String) (addr : String × Int)
    (msg : HelloMsg) (now : ℚ) (table : PeerTable) : PeerTable × Bool :=
  match handleConnection addr msg now table with
  | (t1, Option.none) => (t1, false)
  | (t1, some pi) => handleInboundSocket connections pi t1

/-! ## Concrete instances

Concrete states and inputs used to evaluate the definitions above. -/

/-- A peer the client is connected to. -/
def alicePeer : PeerInfo :=
  { peer_id := "alice@CIC", address := "10.0.0.1", port := 6000,
    nspace := "CIC", status := "CONNECTED", last_seen_at := some 100 }

/-- The same peer as a later discovery reports it: changed address and
port, plain DISCOVERED status. -/
def aliceRediscovered : PeerInfo :=
  { peer_id := "alice@CIC", address := "10.0.0.2", port := 6100,
    nspace := "CIC", status := "DISCOVERED", last_seen_at := some 200 }

/-- A peer seen only through discovery: reachable, never connected. -/
def bobPeer : PeerInfo :=
  { peer_id := "bob@CIC", address := "10.0.0.3", port := 6200,
    nspace := "CIC", status := "DISCOVERED", last_seen_at := some 100 }

/-- A one-entry peer table holding `alicePeer`. -/
def tableA : PeerTable := [("alice@CIC", alicePeer)]

/-- The orchestrator state of a client `alice@CIC` with no live
connections and the default attempt budget of 5. -/
def envC1 : ReconcileEnv :=
  { selfId := "alice@CIC", maxReconnectAttempts := 5, connections := [] }

/-- An outbound record sent at t = 0 awaiting its ACK. -/
def recM : MessageRecord :=
  { msg_id := "m1", src := "alice@CIC", dst := "bob@CIC",
    payload_preview := "hi", timestamp := 0 }

/-- An outbound record sent at t = 3 awaiting its ACK. -/
def recN : MessageRecord :=
  { msg_id := "m2", src := "alice@CIC", dst := "carol@CIC",
    payload_preview := "yo", timestamp := 3 }

/-- A pending-ACK map holding `recM` and `recN`. -/
def pendingP : PendingAcks := [("m1", recM), ("m2", recN)]

/-- A connection state with one pending PING sent at t = 0, one ring
sample and an existing peer average. -/
def stDiscard : ConnState :=
  { pendingPings := [("x", 0)], rttSamples := [1],
    lastPongTime := Option.none,
    peer := { bobPeer with average_rtt_ms := some 5 } }

/-- A connection state with one pending PING sent at t = 100 and no
average yet. -/
def stFresh : ConnState :=
  { pendingPings := [("y", 100)], rttSamples := [],
    lastPongTime := Option.none, peer := bobPeer }

/-- A connection state with one pending PING sent at t = 10, two ring
samples and average 100 ms. -/
def stPrior : ConnState :=
  { pendingPings := [("z", 10)], rttSamples := [2, 3],
    lastPongTime := Option.none,
    peer := { bobPeer with average_rtt_ms := some 100 } }

/-- REGISTER args with an unparseable ttl and a non-string namespace. -/
def argsBadTtlBadNs : RegisterArgs :=
  { nspace := some (.int 5), name := some (.str "bob"),
    port := some (.int 6000), ttl := some (.str "x") }

/-- REGISTER args that are valid except the ttl string. -/
def argsT : RegisterArgs :=
  { nspace := some (.str "CIC"), name := some (.str "bob"),
    port := some (.int 6000), ttl := some (.str "nope") }

/-- REGISTER args with a good ttl and an absent namespace. -/
def argsN : RegisterArgs :=
  { nspace := Option.none, name := some (.str "bob"),
    port := some (.int 6000), ttl := some (.int 7200) }

/-- REGISTER args with a good ttl and namespace and a null port. -/
def argsP : RegisterArgs :=
  { nspace := some (.str "CIC"), name := some (.str "bob"),
    port := some Val.none, ttl := some (.int 7200) }

/-- REGISTER args that are valid except that the ttl is far over the
clamp ceiling. -/
def argsG : RegisterArgs :=
  { nspace := some (.str "CIC"), name := some (.str "bob"),
    port := some (.int 6000), ttl := some (.int 999999) }

/-- An inbound HELLO declaring peer carol@CIC; the `listen_port` slot
stands for a port-like field the handler never reads. -/
def helloCarol : HelloMsg :=
  { type := "HELLO", peer_id := .str "carol@CIC", version := "1.0",
    features := ["ack"], listen_port := some 7777 }

/-- The observed source endpoint of carol's inbound socket: her address
and an ephemeral source port. -/
def addrCarol : String × Int := ("172.16.0.5", 52344)

/-- Carol as a later discovery reports her: her real listening port. -/
def carolDiscovered : PeerInfo :=
  { peer_id := "carol@CIC", address := "172.16.0.5", port := 7000,
    nspace := "CIC", status := "DISCOVERED", last_seen_at := some 300 }

/-- A stored rendezvous record for alice. -/
def recAlice : PeerRecord :=
  { ip := "10.0.0.1", port := 6000, name := "alice", nspace := "CIC",
    ttl := 7200, timestamp := ⟨1000000⟩, observed_ip := "10.0.0.1",
    observed_port := some 40000 }

/-! ## Supporting lemmas -/

theorem digitChar10_isDigit {d : Nat} (h : d < 10) : (digitChar10 d).isDigit = true := by
  interval_cases d <;> decide

theorem digitChar10_toNat {d : Nat} (h : d < 10) : (digitChar10 d).toNat - 48 = d := by
  interval_cases d <;> decide

/-- The datetime codec round-trips: parsing a serialized datetime
reproduces the original value. -/
theorem Datetime.fromisoformat_isoformat (d : Datetime) :
    Datetime.fromisoformat d.isoformat = some d := by
  rcases d with ⟨n⟩
  by_cases h0 : n = 0
  · subst h0
    decide
  · have hdig : ∀ x ∈ Nat.digits 10 n, x < 10 := by
      intro x hx
      exact Nat.digits_lt_base (by norm_num) hx
    have hne : Nat.digits 10 n ≠ [] := Nat.digits_ne_nil_iff_ne_zero.mpr h0
    unfold Datetime.isoformat Datetime.fromisoformat
    simp only [h0, if_false]
    have hall : ((Nat.digits 10 n).map digitChar10).all Char.isDigit = true := by
      rw [List.all_eq_true]
      intro c hc
      rcases List.mem_map.mp hc with ⟨x, hx, rfl⟩
      exact digitChar10_isDigit (hdig x hx)
    have hnil : ((Nat.digits 10 n).map digitChar10) ≠ [] := by
      simpa using hne
    rw [if_pos ⟨hnil, hall⟩]
    have hmap : ((Nat.digits 10 n).map digitChar10).map (fun c => c.toNat - 48)
        = Nat.digits 10 n := by
      rw [List.map_map]
      have h1 : (Nat.digits 10 n).map ((fun c => c.toNat - 48) ∘ digitChar10)
          = (Nat.digits 10 n).map id := by
        apply List.map_congr_left
        intro x hx
        simp only [Function.comp_apply, id_eq]
        exact digitChar10_toNat (hdig x hx)
      rw [h1, List.map_id]
    rw [hmap, Nat.ofDigits_digits]

/-- A digit character is never `Z`. -/
theorem digitChar10_ne_Z {d : Nat} (h : d < 10) : digitChar10 d ≠ 'Z' := by
  interval_cases d <;> decide

/-- A serialized datetime never ends in `Z`, so the trailing-Z rewrite of
the loaders leaves it unchanged. -/
theorem endsWithZ_isoformat (d : Datetime) : endsWithZ d.isoformat = false := by
  rcases d with ⟨n⟩
  by_cases h0 : n = 0
  · subst h0
    decide
  · have hlast : (Datetime.isoformat ⟨n⟩).data.getLast?
        = ((Nat.digits 10 n).getLast?).map digitChar10 := by
      unfold Datetime.isoformat
      simp only [h0, if_false]
      exact List.getLast?_map _ _
    unfold endsWithZ
    rw [hlast]
    rw [decide_eq_false_iff_not]
    rcases h : (Nat.digits 10 n).getLast? with _ | x
    · simp
    · have hx : x ∈ Nat.digits 10 n := List.mem_of_getLast?_eq_some h
      have hlt : x < 10 := Nat.digits_lt_base (by norm_num) hx
      simpa using digitChar10_ne_Z hlt

theorem lookupKey_eq_none_of_not_mem {α : Type} {k : String}
    {l : List (String × α)} (h : k ∉ l.map Prod.fst) :
    lookupKey k l = Option.none := by
  induction l with
  | nil => rfl
  | cons hd tl ih =>
    simp only [List.map_cons, List.mem_cons] at h
    push_neg at h
    have h1 : hd.1 ≠ k := fun hh => h.1 hh.symm
    simp only [lookupKey, if_neg h1]
    exact ih h.2

theorem lookupKey_of_mem_nodup {α : Type} {k : String} {v : α}
    {l : List (String × α)} (hnd : (l.map Prod.fst).Nodup)
    (hmem : (k, v) ∈ l) : lookupKey k l = some v := by
  induction l with
  | nil => exact absurd hmem (List.not_mem_nil _)
  | cons hd tl ih =>
    simp only [List.map_cons, List.nodup_cons] at hnd
    rcases List.mem_cons.mp hmem with heq | htl
    · subst heq
      simp [lookupKey]
    · have hk : hd.1 ≠ k := by
        intro hkk
        exact hnd.1 (hkk ▸ (List.mem_map.mpr ⟨(k, v), htl, rfl⟩))
      simp only [lookupKey, if_neg hk]
      exact ih hnd.2 htl

theorem lookupKey_filter_of_none {α : Type} {k : String}
    {l : List (String × α)} (p : String × α → Bool)
    (h : lookupKey k l = Option.none) :
    lookupKey k (l.filter p) = Option.none := by
  induction l with
  | nil => rfl
  | cons hd tl ih =>
    by_cases hk : hd.1 = k
    · simp [lookupKey, hk] at h
    · simp only [lookupKey, if_neg hk] at h
      by_cases hp : p hd
      · simp only [List.filter_cons, hp, if_true, lookupKey, if_neg hk]
        exact ih h
      · simp only [List.filter_cons, hp]
        simpa using ih h

theorem lookupKey_filter_expired {α : Type} {k : String} {v : α}
    {l : List (String × α)} (p : String × α → Bool)
    (hnd : (l.map Prod.fst).Nodup) (hmem : (k, v) ∈ l)
    (hp : p (k, v) = false) :
    lookupKey k (l.filter p) = Option.none := by
  induction l with
  | nil => rfl
  | cons hd tl ih =>
    simp only [List.map_cons, List.nodup_cons] at hnd
    rcases List.mem_cons.mp hmem with heq | htl
    · subst heq
      rw [List.filter_cons, hp]
      simp only [Bool.false_eq_true, if_false]
      apply lookupKey_filter_of_none
      exact lookupKey_eq_none_of_not_mem hnd.1
    · have hk : hd.1 ≠ k := by
        intro hkk
        exact hnd.1 (hkk ▸ (List.mem_map.mpr ⟨(k, v), htl, rfl⟩))
      by_cases hph : p hd
      · simp only [List.filter_cons, hph, if_true, lookupKey, if_neg hk]
        exact ih hnd.2 htl
      · simp only [List.filter_cons, hph]
        simpa using ih hnd.2 htl

theorem lookupKey_eraseKey_self {α : Type} {k : String}
    {l : List (String × α)} (hnd : (l.map Prod.fst).Nodup) :
    lookupKey k (eraseKey k l) = Option.none := by
  induction l with
  | nil => rfl
  | cons hd tl ih =>
    simp only [List.map_cons, List.nodup_cons] at hnd
    by_cases hk : hd.1 = k
    · simp only [eraseKey, if_pos hk]
      exact lookupKey_eq_none_of_not_mem (hk ▸ hnd.1)
    · simp only [eraseKey, if_neg hk, lookupKey]
      exact ih hnd.2

theorem lookupKey_append_self {α : Type} {k : String} {v : α}
    {l : List (String × α)} (h : lookupKey k l = Option.none) :
    lookupKey k (l ++ [(k, v)]) = some v := by
  induction l with
  | nil => simp [lookupKey]
  | cons hd tl ih =>
    by_cases hk : hd.1 = k
    · simp [lookupKey, hk] at h
    · simp only [lookupKey, if_neg hk] at h
      simp only [List.cons_append, lookupKey, if_neg hk]
      exact ih h

theorem lookupKey_map_merge (k : String) (g : PeerInfo → PeerInfo)
    (t : PeerTable) :
    lookupKey k (t.map (fun kv => if kv.1 = k then (kv.1, g kv.2) else kv))
      = (lookupKey k t).map g := by
  induction t with
  | nil => rfl
  | cons hd tl ih =>
    simp only [List.map_cons]
    by_cases hk : hd.1 = k
    · rw [if_pos hk]
      simp [lookupKey, hk]
    · rw [if_neg hk]
      simp only [lookupKey, if_neg hk]
      exact ih

theorem lookupKey_upsert_address (p : PeerInfo) (t : PeerTable) :
    (lookupKey p.peer_id (upsertPeer p t).2).map PeerInfo.address
      = some p.address := by
  unfold upsertPeer
  cases h : lookupKey p.peer_id t with
  | none =>
    simp only
    rw [lookupKey_append_self h]
    rfl
  | some ex =>
    simp only
    rw [lookupKey_map_merge p.peer_id (mergePeer p) t, h]
    rfl

theorem lookupKey_upsert_port (p : PeerInfo) (t : PeerTable) :
    (lookupKey p.peer_id (upsertPeer p t).2).map PeerInfo.port
      = some p.port := by
  unfold upsertPeer
  cases h : lookupKey p.peer_id t with
  | none =>
    simp only
    rw [lookupKey_append_self h]
    rfl
  | some ex =>
    simp only
    rw [lookupKey_map_merge p.peer_id (mergePeer p) t, h]
    rfl

theorem lookupKey_upsert_status (p : PeerInfo) (t : PeerTable)
    (hp : p.status = "CONNECTED") :
    (lookupKey p.peer_id (upsertPeer p t).2).map PeerInfo.status
      = some "CONNECTED" := by
  unfold upsertPeer
  cases h : lookupKey p.peer_id t with
  | none =>
    simp only
    rw [lookupKey_append_self h]
    rw [← hp]
    rfl
  | some ex =>
    simp only
    rw [lookupKey_map_merge p.peer_id (mergePeer p) t, h]
    show some (mergePeer p ex).status = some "CONNECTED"
    unfold mergePeer
    by_cases hex : ex.status = "CONNECTED" <;> simp [hex, hp]

/-! ## Claim theorems -/

/-- C7: for every peer table and upserted PeerInfo, an absent peer_id is
inserted and upsert reports new (True); a present one reports False and
the entry's address, port, namespace and last_seen_at are refreshed from
the incoming peer, the status is preserved whenever the existing status is
CONNECTED (only a non-CONNECTED entry takes the incoming status), and the
remaining fields of the existing entry are kept. -/
theorem upsert_peer_spec (p1 p2 : PeerInfo) (t1 t2 : PeerTable) (ex : PeerInfo)
    (habs : lookupKey p1.peer_id t1 = Option.none)
    (hpres : lookupKey p2.peer_id t2 = some ex) :
    (upsertPeer p1 t1).1 = true ∧
    lookupKey p1.peer_id (upsertPeer p1 t1).2 = some p1 ∧
    (upsertPeer p2 t2).1 = false ∧
    (lookupKey p2.peer_id (upsertPeer p2 t2).2).map PeerInfo.address = some p2.address ∧
    (lookupKey p2.peer_id (upsertPeer p2 t2).2).map PeerInfo.port = some p2.port ∧
    (lookupKey p2.peer_id (upsertPeer p2 t2).2).map PeerInfo.nspace = some p2.nspace ∧
    (lookupKey p2.peer_id (upsertPeer p2 t2).2).map PeerInfo.last_seen_at = some p2.last_seen_at ∧
    (lookupKey p2.peer_id (upsertPeer p2 t2).2).map PeerInfo.status
      = some (if ex.status = "CONNECTED" then ex.status else p2.status) ∧
    (lookupKey p2.peer_id (upsertPeer p2 t2).2).map PeerInfo.average_rtt_ms = some ex.average_rtt_ms ∧
    (lookupKey p2.peer_id (upsertPeer p2 t2).2).map PeerInfo.reconnect_attempts = some ex.reconnect_attempts ∧
    (lookupKey p2.peer_id (upsertPeer p2 t2).2).map PeerInfo.features = some ex.features := by
  have h1 : upsertPeer p1 t1 = (true, t1 ++ [(p1.peer_id, p1)]) := by
    unfold upsertPeer
    rw [habs]
  have h2 : lookupKey p2.peer_id (upsertPeer p2 t2).2 = some (mergePeer p2 ex) := by
    unfold upsertPeer
    rw [hpres]
    simp only
    rw [lookupKey_map_merge p2.peer_id (mergePeer p2) t2, hpres]
    rfl
  have h3 : (upsertPeer p2 t2).1 = false := by
    unfold upsertPeer
    rw [hpres]
  have hstat : (mergePeer p2 ex).status
      = (if ex.status = "CONNECTED" then ex.status else p2.status) := by
    unfold mergePeer
    by_cases h : ex.status = "CONNECTED" <;> simp [h]
  refine ⟨by rw [h1], ?_, h3, ?_, ?_, ?_, ?_, ?_, ?_, ?_, ?_⟩
  · rw [h1]
    exact lookupKey_append_self habs
  · rw [h2]; rfl
  · rw [h2]; rfl
  · rw [h2]; rfl
  · rw [h2]; rfl
  · rw [h2]
    exact congrArg some hstat
  · rw [h2]; rfl
  · rw [h2]; rfl
  · rw [h2]; rfl

/-- C7 witness: inserting the undiscovered `bobPeer` into `tableA` reports
new; re-upserting `alicePeer` (CONNECTED, rediscovered at a new address
and port) refreshes address/port/namespace/last_seen while the CONNECTED
status survives. -/
theorem upsert_peer_spec_witness :
    (upsertPeer bobPeer tableA).1 = true ∧
    lookupKey bobPeer.peer_id (upsertPeer bobPeer tableA).2 = some bobPeer ∧
    (upsertPeer aliceRediscovered tableA).1 = false ∧
    (lookupKey aliceRediscovered.peer_id (upsertPeer aliceRediscovered tableA).2).map PeerInfo.address
      = some aliceRediscovered.address ∧
    (lookupKey aliceRediscovered.peer_id (upsertPeer aliceRediscovered tableA).2).map PeerInfo.port
      = some aliceRediscovered.port ∧
    (lookupKey aliceRediscovered.peer_id (upsertPeer aliceRediscovered tableA).2).map PeerInfo.nspace
      = some aliceRediscovered.nspace ∧
    (lookupKey aliceRediscovered.peer_id (upsertPeer aliceRediscovered tableA).2).map PeerInfo.last_seen_at
      = some aliceRediscovered.last_seen_at ∧
    (lookupKey aliceRediscovered.peer_id (upsertPeer aliceRediscovered tableA).2).map PeerInfo.status
      = some (if alicePeer.status = "CONNECTED" then alicePeer.status else aliceRediscovered.status) ∧
    (lookupKey aliceRediscovered.peer_id (upsertPeer aliceRediscovered tableA).2).map PeerInfo.average_rtt_ms
      = some alicePeer.average_rtt_ms ∧
    (lookupKey aliceRediscovered.peer_id (upsertPeer aliceRediscovered tableA).2).map PeerInfo.reconnect_attempts
      = some alicePeer.reconnect_attempts ∧
    (lookupKey aliceRediscovered.peer_id (upsertPeer aliceRediscovered tableA).2).map PeerInfo.features
      = some alicePeer.features :=
  upsert_peer_spec bobPeer aliceRediscovered tableA tableA alicePeer rfl rfl

/-- C1: the claim describes the intended reconcile loop, but the code
crashes before reaching the backoff logic.  `PeerInfo` (state.py, a
`slots=True` dataclass) has no `last_connection_attempt` attribute and no
code path ever creates one, yet p2p_client.py line 297 reads
`peer.last_connection_attempt` for every known peer that is not self, not
connected, reachable and under the attempt budget — so
`reconcile_peer_connections` raises `AttributeError` on its first eligible
peer instead of computing the backoff, recording the attempt or
connecting.  Here: a client with no live connections and one discovered
reachable peer with zero attempts. -/
theorem reconcile_attribute_error_eval :
    reconcilePeerConnections envC1 [bobPeer]
      = .error "AttributeError: PeerInfo object has no attribute last_connection_attempt" := rfl

/-- C5: a pending SEND record older than the 5 s ACK timeout is evicted by
the watchdog sweep and its error set to "ACK timeout (5s)"; once evicted
it is no longer pending, so neither a later sweep nor a late ACK ever
touches it again (the error is set exactly once, with no retry); a
matching ACK pops its pending record and marks it acknowledged with the
ACK arrival time; an ACK with no matching pending msg_id changes
nothing. -/
theorem ack_lifecycle_spec (now ackNow : ℚ) (pending : PendingAcks)
    (id idA idU : String) (r rA : MessageRecord)
    (hnd : (pending.map Prod.fst).Nodup)
    (hmem : (id, r) ∈ pending)
    (hexp : now - r.timestamp > 5)
    (hA : lookupKey idA pending = some rA)
    (hU : lookupKey idU pending = Option.none) :
    lookupKey id (checkAckTimeouts now pending).1 = Option.none ∧
    { r with error := some "ACK timeout (5s)" } ∈ (checkAckTimeouts now pending).2 ∧
    handleAck id ackNow (checkAckTimeouts now pending).1
      = ((checkAckTimeouts now pending).1, Option.none) ∧
    lookupKey id (checkAckTimeouts ackNow (checkAckTimeouts now pending).1).1
      = Option.none ∧
    (handleAck idA ackNow pending).2
      = some { rA with acknowledged := true, ack_timestamp := some ackNow } ∧
    lookupKey idA (handleAck idA ackNow pending).1 = Option.none ∧
    handleAck idU ackNow pending = (pending, Option.none) := by
  have hexpB : ackExpired now r = true := by
    unfold ackExpired
    exact decide_eq_true hexp
  have c1 : lookupKey id (checkAckTimeouts now pending).1 = Option.none := by
    unfold checkAckTimeouts
    exact lookupKey_filter_expired _ hnd hmem (by simp [hexpB])
  refine ⟨c1, ?_, ?_, ?_, ?_, ?_, ?_⟩
  · unfold checkAckTimeouts
    exact List.mem_map.mpr ⟨(id, r), List.mem_filter.mpr ⟨hmem, by simp [hexpB]⟩, rfl⟩
  · unfold handleAck
    rw [c1]
  · unfold checkAckTimeouts
    exact lookupKey_filter_of_none _ c1
  · unfold handleAck
    rw [hA]
  · unfold handleAck
    rw [hA]
    exact lookupKey_eraseKey_self hnd
  · unfold handleAck
    rw [hU]

/-- C5 witness: at t = 6 the sweep evicts `recM` (sent at t = 0) and sets
its error; `recN` (sent at t = 3) is still pending and an ACK at t = 7
acknowledges it; an ACK for the unknown id "zz" changes nothing. -/
theorem ack_lifecycle_spec_witness :
    lookupKey "m1" (checkAckTimeouts 6 pendingP).1 = Option.none ∧
    { recM with error := some "ACK timeout (5s)" } ∈ (checkAckTimeouts 6 pendingP).2 ∧
    handleAck "m1" 7 (checkAckTimeouts 6 pendingP).1
      = ((checkAckTimeouts 6 pendingP).1, Option.none) ∧
    lookupKey "m1" (checkAckTimeouts 7 (checkAckTimeouts 6 pendingP).1).1
      = Option.none ∧
    (handleAck "m2" 7 pendingP).2
      = some { recN with acknowledged := true, ack_timestamp := some 7 } ∧
    lookupKey "m2" (handleAck "m2" 7 pendingP).1 = Option.none ∧
    handleAck "zz" 7 pendingP = (pendingP, Option.none) :=
  ack_lifecycle_spec 6 7 pendingP "m1" "m2" "zz" recM recN (by decide)
    (by simp [pendingP]) (by norm_num [recM]) rfl rfl

/-- C9: a socket-level transmission failure never sets the returned
record's error.  `_send_raw` catches `OSError`, logs and closes the
connection without re-raising, so for every frame within the 32 KiB limit
— whatever the socket does — `MessageRouter.send` returns a record with no
error, appends it to the outbound history and registers it as pending
(require_ack = true), leaving the later ACK timeout as the only failure
signal; the router's exception branch fires exactly for an oversized
frame rejected by `send_json`, whose ValueError text becomes the error
and which is not appended to history. -/
theorem router_send_spec (msgId src dst payload : String) (now : ℚ)
    (lenOk lenBig : Nat) (sock : SockState)
    (history : List MessageRecord) (pending : PendingAcks)
    (hok : lenOk ≤ MAX_LINE_BYTES) (hbig : lenBig > MAX_LINE_BYTES) :
    ((routerSend true msgId src dst payload now true lenOk sock history pending).record).map
        MessageRecord.error = some Option.none ∧
    (routerSend true msgId src dst payload now true lenOk sock history pending).history
      = history
        ++ ((routerSend true msgId src dst payload now true lenOk sock history pending).record).toList ∧
    (routerSend true msgId src dst payload now true lenOk sock history pending).pending
      = pending
        ++ (((routerSend true msgId src dst payload now true lenOk sock history pending).record).map
              (fun r => (msgId, r))).toList ∧
    ((routerSend true msgId src dst payload now true lenBig sock history pending).record).map
        MessageRecord.error = some (some "Payload excede 32KiB") ∧
    (routerSend true msgId src dst payload now true lenBig sock history pending).history
      = history ∧
    (routerSend true msgId src dst payload now true lenBig sock history pending).pending
      = pending := by
  have hnotbig : ¬ lenOk > MAX_LINE_BYTES := not_lt.mpr hok
  unfold routerSend sendJson
  simp only [Bool.not_true, if_neg hnotbig, if_pos hbig, Bool.false_eq_true,
    if_false]
  refine ⟨?_, ?_, ?_, ?_, ?_, ?_⟩ <;> first | rfl | trivial

/-- C9 witness: a 100-byte frame on a socket whose `sendall` raises
`OSError` still yields an error-free record appended to history and
pending; a 40000-byte frame takes the ValueError branch. -/
theorem router_send_spec_witness :
    ((routerSend true "m1" "alice@CIC" "bob@CIC" "hello" 1 true 100
        ⟨false, true⟩ [] []).record).map MessageRecord.error
      = some Option.none ∧
    (routerSend true "m1" "alice@CIC" "bob@CIC" "hello" 1 true 100
        ⟨false, true⟩ [] []).history
      = []
        ++ ((routerSend true "m1" "alice@CIC" "bob@CIC" "hello" 1 true 100
              ⟨false, true⟩ [] []).record).toList ∧
    (routerSend true "m1" "alice@CIC" "bob@CIC" "hello" 1 true 100
        ⟨false, true⟩ [] []).pending
      = []
        ++ (((routerSend true "m1" "alice@CIC" "bob@CIC" "hello" 1 true 100
                ⟨false, true⟩ [] []).record).map (fun r => ("m1", r))).toList ∧
    ((routerSend true "m1" "alice@CIC" "bob@CIC" "hello" 1 true 40000
        ⟨false, true⟩ [] []).record).map MessageRecord.error
      = some (some "Payload excede 32KiB") ∧
    (routerSend true "m1" "alice@CIC" "bob@CIC" "hello" 1 true 40000
        ⟨false, true⟩ [] []).history = [] ∧
    (routerSend true "m1" "alice@CIC" "bob@CIC" "hello" 1 true 40000
        ⟨false, true⟩ [] []).pending = [] :=
  router_send_spec "m1" "alice@CIC" "bob@CIC" "hello" 1 100 40000
    ⟨false, true⟩ [] [] (by decide) (by decide)

/-- C10: an accepted inbound HELLO yields a PeerInfo whose address and
port are the remote socket's source address and ephemeral source port —
independent of any port-like field the HELLO carries — with status
CONNECTED; the upsert happens in the PeerServer before the orchestrator's
duplicate check, so even a connection the orchestrator rejects as a
duplicate has already stored a CONNECTED entry under the observed source
port; a later discovery upsert overwrites address and port with the
advertised ones. -/
theorem inbound_hello_spec (addr : String × Int) (msg : HelloMsg) (now : ℚ)
    (table : PeerTable) (connections : List String) (pid : String)
    (lp : Option Int) (dpeer : PeerInfo)
    (htype : msg.type = "HELLO") (hpid : msg.peer_id = .str pid)
    (hdup : connections.contains pid = true)
    (hdp : dpeer.peer_id = pid) :
    ((handleConnection addr msg now table).2).map PeerInfo.address = some addr.1 ∧
    ((handleConnection addr msg now table).2).map PeerInfo.port = some addr.2 ∧
    ((handleConnection addr msg now table).2).map PeerInfo.status = some "CONNECTED" ∧
    ((handleConnection addr msg now table).2).map PeerInfo.peer_id = some pid ∧
    handleConnection addr { msg with listen_port := lp } now table
      = handleConnection addr msg now table ∧
    (inboundFlow connections addr msg now table).2 = false ∧
    (lookupKey pid (inboundFlow connections addr msg now table).1).map
        PeerInfo.status = some "CONNECTED" ∧
    (lookupKey pid (inboundFlow connections addr msg now table).1).map
        PeerInfo.port = some addr.2 ∧
    (lookupKey pid (upsertPeer dpeer (inboundFlow connections addr msg now table).1).2).map
        PeerInfo.address = some dpeer.address ∧
    (lookupKey pid (upsertPeer dpeer (inboundFlow connections addr msg now table).1).2).map
        PeerInfo.port = some dpeer.port := by
  have hc : handleConnection addr msg now table
      = ((upsertPeer
            { peer_id := pid, address := addr.1, port := addr.2,
              nspace := namespaceOf pid, status := "CONNECTED",
              last_seen_at := some now, features := msg.features } table).2,
         some { peer_id := pid, address := addr.1, port := addr.2,
                nspace := namespaceOf pid, status := "CONNECTED",
                last_seen_at := some now, features := msg.features }) := by
    unfold handleConnection
    rw [htype, hpid]
    simp
  have hflow : inboundFlow connections addr msg now table
      = ((upsertPeer
            { peer_id := pid, address := addr.1, port := addr.2,
              nspace := namespaceOf pid, status := "CONNECTED",
              last_seen_at := some now, features := msg.features } table).2,
         false) := by
    unfold inboundFlow
    rw [hc]
    simp only [handleInboundSocket, hdup, if_pos]
  refine ⟨by rw [hc]; rfl, by rw [hc]; rfl, by rw [hc]; rfl, by rw [hc]; rfl,
    ?_, by rw [hflow], ?_, ?_, ?_, ?_⟩
  · rw [hc]
    unfold handleConnection
    rw [htype, hpid]
    simp
  · rw [hflow]
    exact lookupKey_upsert_status
      { peer_id := pid, address := addr.1, port := addr.2,
        nspace := namespaceOf pid, status := "CONNECTED",
        last_seen_at := some now, features := msg.features } table rfl
  · rw [hflow]
    exact lookupKey_upsert_port
      { peer_id := pid, address := addr.1, port := addr.2,
        nspace := namespaceOf pid, status := "CONNECTED",
        last_seen_at := some now, features := msg.features } table
  · rw [hflow, ← hdp]
    exact lookupKey_upsert_address dpeer _
  · rw [hflow, ← hdp]
    exact lookupKey_upsert_port dpeer _

/-- C10 witness: carol's inbound HELLO arrives from source endpoint
172.16.0.5:52344 while a connection for carol already exists; the HELLO's
port-like field 7777 is ignored, the table gets a CONNECTED entry with
port 52344, and a later discovery upsert moves her to her advertised port
7000. -/
theorem inbound_hello_spec_witness :
    ((handleConnection addrCarol helloCarol 100 tableA).2).map PeerInfo.address
      = some addrCarol.1 ∧
    ((handleConnection addrCarol helloCarol 100 tableA).2).map PeerInfo.port
      = some addrCarol.2 ∧
    ((handleConnection addrCarol helloCarol 100 tableA).2).map PeerInfo.status
      = some "CONNECTED" ∧
    ((handleConnection addrCarol helloCarol 100 tableA).2).map PeerInfo.peer_id
      = some "carol@CIC" ∧
    handleConnection addrCarol { helloCarol with listen_port := Option.none } 100 tableA
      = handleConnection addrCarol helloCarol 100 tableA ∧
    (inboundFlow ["carol@CIC"] addrCarol helloCarol 100 tableA).2 = false ∧
    (lookupKey "carol@CIC" (inboundFlow ["carol@CIC"] addrCarol helloCarol 100 tableA).1).map
        PeerInfo.status = some "CONNECTED" ∧
    (lookupKey "carol@CIC" (inboundFlow ["carol@CIC"] addrCarol helloCarol 100 tableA).1).map
        PeerInfo.port = some addrCarol.2 ∧
    (lookupKey "carol@CIC"
        (upsertPeer carolDiscovered
          (inboundFlow ["carol@CIC"] addrCarol helloCarol 100 tableA).1).2).map
        PeerInfo.address = some carolDiscovered.address ∧
    (lookupKey "carol@CIC"
        (upsertPeer carolDiscovered
          (inboundFlow ["carol@CIC"] addrCarol helloCarol 100 tableA).1).2).map
        PeerInfo.port = some carolDiscovered.port :=
  inbound_hello_spec addrCarol helloCarol 100 tableA ["carol@CIC"] "carol@CIC"
    Option.none carolDiscovered rfl rfl (by decide) rfl

theorem getLast?_tail_of_two_le {α : Type} :
    ∀ {l : List α}, 2 ≤ l.length → l.tail.getLast? = l.getLast?
  | [], h => by simp at h
  | [a], h => by simp at h
  | a :: b :: t, _ => by simp [List.getLast?_cons_cons]

/-- C2 counterexample: the code's sanity check is `rtt < 0 or rtt > 60`,
so a PONG whose RTT is exactly 0 seconds — outside the claimed (0, 60]
interval — is accepted: from `stFresh` (PING "y" sent at t = 100, no
average yet), a matching PONG at t = 100 puts the 0 sample into the ring
and sets the peer's average_rtt_ms to 0. -/
theorem pong_zero_rtt_updates_average :
    stFresh.peer.average_rtt_ms = Option.none ∧
    (handlePong ⟨some "y", Option.none⟩ 100 stFresh).peer.average_rtt_ms
      = some 0 ∧
    (handlePong ⟨some "y", Option.none⟩ 100 stFresh).rttSamples = [0] := by
  have h : pongRtt ⟨some "y", Option.none⟩ 100 stFresh.pendingPings
      = some (0, []) := by
    norm_num [pongRtt, stFresh, lookupKey, eraseKey]
    intro hcon
    exact absurd hcon (by decide)
  have h2 : handlePong ⟨some "y", Option.none⟩ 100 stFresh
      = applySample 0 100 { stFresh with pendingPings := [] } := by
    unfold handlePong
    rw [h]
  refine ⟨rfl, ?_, ?_⟩ <;>
  · rw [h2]
    norm_num [applySample, stFresh, bobPeer]

/-- C2 (amended): a PONG yielding an RTT sample outside [0, 60] seconds
(negative or above 60 — a sample of exactly 0 is accepted) is discarded,
leaving the ring and the peer's average_rtt_ms unchanged (only the
pending-ping pop persists); an accepted sample is appended to the ring,
which never grows past 10 entries, and updates average_rtt_ms to
0.3·sample_ms + 0.7·previous, or to sample_ms when unset; a PONG yielding
no sample changes nothing; the connection average is the ring's
arithmetic mean. -/
theorem handle_pong_spec
    (stA stB stC stM : ConnState) (msgA msgB msgC msgN : PongMsg)
    (nowA nowB nowC nowN : ℚ) (rttA rttB rttC prev : ℚ)
    (pendA pendB pendC : List (String × ℚ))
    (hA : pongRtt msgA nowA stA.pendingPings = some (rttA, pendA))
    (hAbad : rttA < 0 ∨ rttA > 60)
    (hB : pongRtt msgB nowB stB.pendingPings = some (rttB, pendB))
    (hB0 : 0 ≤ rttB) (hB60 : rttB ≤ 60)
    (hBavg : stB.peer.average_rtt_ms = Option.none)
    (hBlen : stB.rttSamples.length ≤ 10)
    (hC : pongRtt msgC nowC stC.pendingPings = some (rttC, pendC))
    (hC0 : 0 ≤ rttC) (hC60 : rttC ≤ 60)
    (hCavg : stC.peer.average_rtt_ms = some prev)
    (hN : pongRtt msgN nowN stM.pendingPings = Option.none) :
    (handlePong msgA nowA stA).rttSamples = stA.rttSamples ∧
    (handlePong msgA nowA stA).peer.average_rtt_ms = stA.peer.average_rtt_ms ∧
    (handlePong msgA nowA stA).pendingPings = pendA ∧
    (handlePong msgB nowB stB).rttSamples.length ≤ 10 ∧
    (handlePong msgB nowB stB).rttSamples.getLast? = some rttB ∧
    (handlePong msgB nowB stB).peer.average_rtt_ms = some (rttB * 1000) ∧
    getMetricsAvg (handlePong msgB nowB stB)
      = (handlePong msgB nowB stB).rttSamples.sum
          / (handlePong msgB nowB stB).rttSamples.length ∧
    (handlePong msgC nowC stC).peer.average_rtt_ms
      = some ((3 : ℚ)/10 * (rttC * 1000) + (7 : ℚ)/10 * prev) ∧
    handlePong msgN nowN stM = stM := by
  have hAmid : handlePong msgA nowA stA
      = applySample rttA nowA { stA with pendingPings := pendA } := by
    unfold handlePong
    rw [hA]
  have hAeq : handlePong msgA nowA stA = { stA with pendingPings := pendA } := by
    rw [hAmid]
    unfold applySample
    rw [if_pos hAbad]
  have hnotB : ¬(rttB < 0 ∨ rttB > 60) := by
    rintro (h | h) <;> linarith
  have hnotC : ¬(rttC < 0 ∨ rttC > 60) := by
    rintro (h | h) <;> linarith
  have hBeq : handlePong msgB nowB stB
      = applySample rttB nowB { stB with pendingPings := pendB } := by
    unfold handlePong
    rw [hB]
  have hBs : (handlePong msgB nowB stB).rttSamples
      = (if (stB.rttSamples ++ [rttB]).length > 10
         then (stB.rttSamples ++ [rttB]).tail
         else stB.rttSamples ++ [rttB]) := by
    rw [hBeq]
    unfold applySample
    rw [if_neg hnotB]
  have hBlast : (handlePong msgB nowB stB).rttSamples.getLast? = some rttB := by
    rw [hBs]
    split_ifs with h
    · rw [getLast?_tail_of_two_le (by omega)]
      exact List.getLast?_concat _
    · exact List.getLast?_concat _
  have hBlen' : (handlePong msgB nowB stB).rttSamples.length ≤ 10 := by
    rw [hBs]
    split_ifs with h
    · simp only [List.length_tail, List.length_append, List.length_cons,
        List.length_nil] at h ⊢
      omega
    · simp only [List.length_append, List.length_cons, List.length_nil] at h ⊢
      omega
  have hBavg' : (handlePong msgB nowB stB).peer.average_rtt_ms
      = some (rttB * 1000) := by
    rw [hBeq]
    unfold applySample
    rw [if_neg hnotB]
    show some (match stB.peer.average_rtt_ms with
      | Option.none => rttB * 1000
      | some p => (3 : ℚ)/10 * (rttB * 1000) + (7 : ℚ)/10 * p) = _
    rw [hBavg]
  have hmetrics : getMetricsAvg (handlePong msgB nowB stB)
      = (handlePong msgB nowB stB).rttSamples.sum
          / (handlePong msgB nowB stB).rttSamples.length := by
    cases hres : (handlePong msgB nowB stB).rttSamples with
    | nil =>
      rw [hres] at hBlast
      simp at hBlast
    | cons a t =>
      unfold getMetricsAvg
      rw [hres]
      rfl
  have hCmid : handlePong msgC nowC stC
      = applySample rttC nowC { stC with pendingPings := pendC } := by
    unfold handlePong
    rw [hC]
  have hCavg' : (handlePong msgC nowC stC).peer.average_rtt_ms
      = some ((3 : ℚ)/10 * (rttC * 1000) + (7 : ℚ)/10 * prev) := by
    rw [hCmid]
    unfold applySample
    rw [if_neg hnotC]
    show some (match stC.peer.average_rtt_ms with
      | Option.none => rttC * 1000
      | some p => (3 : ℚ)/10 * (rttC * 1000) + (7 : ℚ)/10 * p) = _
    rw [hCavg]
  have hNeq : handlePong msgN nowN stM = stM := by
    unfold handlePong
    rw [hN]
  exact ⟨by rw [hAeq], by rw [hAeq], by rw [hAeq], hBlen', hBlast, hBavg',
    hmetrics, hCavg', hNeq⟩

/-- C2 witness: a 70 s sample (from `stDiscard`) is discarded; a 0.5 s
sample (from `stFresh`, no average yet) is accepted and seeds the average
at 500 ms; a 1 s sample against `stPrior`'s 100 ms average gives the EMA
0.3·1000 + 0.7·100; a PONG with no usable timestamp changes nothing. -/
theorem handle_pong_spec_witness :
    (handlePong ⟨some "x", Option.none⟩ 70 stDiscard).rttSamples
      = stDiscard.rttSamples ∧
    (handlePong ⟨some "x", Option.none⟩ 70 stDiscard).peer.average_rtt_ms
      = stDiscard.peer.average_rtt_ms ∧
    (handlePong ⟨some "x", Option.none⟩ 70 stDiscard).pendingPings = [] ∧
    (handlePong ⟨some "y", Option.none⟩ (201/2) stFresh).rttSamples.length ≤ 10 ∧
    (handlePong ⟨some "y", Option.none⟩ (201/2) stFresh).rttSamples.getLast?
      = some (1/2) ∧
    (handlePong ⟨some "y", Option.none⟩ (201/2) stFresh).peer.average_rtt_ms
      = some ((1/2) * 1000) ∧
    getMetricsAvg (handlePong ⟨some "y", Option.none⟩ (201/2) stFresh)
      = (handlePong ⟨some "y", Option.none⟩ (201/2) stFresh).rttSamples.sum
          / (handlePong ⟨some "y", Option.none⟩ (201/2) stFresh).rttSamples.length ∧
    (handlePong ⟨some "z", Option.none⟩ 11 stPrior).peer.average_rtt_ms
      = some ((3 : ℚ)/10 * (1 * 1000) + (7 : ℚ)/10 * 100) ∧
    handlePong ⟨Option.none, Option.none⟩ 11 stPrior = stPrior :=
  handle_pong_spec stDiscard stFresh stPrior stPrior
    ⟨some "x", Option.none⟩ ⟨some "y", Option.none⟩ ⟨some "z", Option.none⟩
    ⟨Option.none, Option.none⟩ 70 (201/2) 11 11 70 (1/2) 1 100 [] [] []
    (by
      norm_num [pongRtt, stDiscard, lookupKey, eraseKey]
      intro hcon
      exact absurd hcon (by decide))
    (Or.inr (by norm_num))
    (by
      norm_num [pongRtt, stFresh, lookupKey, eraseKey]
      intro hcon
      exact absurd hcon (by decide))
    (by norm_num) (by norm_num) rfl (by decide)
    (by
      norm_num [pongRtt, stPrior, lookupKey, eraseKey]
      intro hcon
      exact absurd hcon (by decide))
    (by norm_num) (by norm_num) rfl rfl

/-- C3 counterexample: the ttl conversion runs before the namespace
check, so a REGISTER whose ttl fails `int()` and whose namespace is not a
string is rejected with `bad_ttl`, not with `bad_namespace` as the claim
requires for every request with a bad namespace. -/
theorem register_bad_ttl_shadows_bad_namespace :
    handleRegister argsBadTtlBadNs "1.2.3.4" (some 55555) = .err "bad_ttl" ∧
    RegisterResponse.err "bad_ttl" ≠ RegisterResponse.err "bad_namespace" := by
  exact ⟨by decide, by decide⟩

/-- C3 (amended): REGISTER validation applies in this order — a ttl whose
`int()` conversion fails is rejected with `bad_ttl`; otherwise a namespace
that is not a 1-to-64-character string is rejected with `bad_namespace`;
otherwise a port whose `int()` conversion fails or lands outside
[1, 65535] is rejected with `bad_port`; otherwise the request succeeds
with the ttl clamped into [1, 86400] — a ttl out of range is never
rejected, only clamped. -/
theorem register_validation_spec (ip : String) (op : Option Int)
    (aT aN aP aG : RegisterArgs) (tN tP tG : Int)
    (hT : pyInt (aT.ttl.getD (.int 7200)) = Option.none)
    (hN1 : pyInt (aN.ttl.getD (.int 7200)) = some tN)
    (hN2 : nsInvalid (aN.nspace.getD .none) = true)
    (hP1 : pyInt (aP.ttl.getD (.int 7200)) = some tP)
    (hP2 : nsInvalid (aP.nspace.getD .none) = false)
    (hP3 : portInvalid (aP.port.getD .none) = true)
    (hG1 : pyInt (aG.ttl.getD (.int 7200)) = some tG)
    (hG2 : nsInvalid (aG.nspace.getD .none) = false)
    (hG3 : portInvalid (aG.port.getD .none) = false) :
    handleRegister aT ip op = .err "bad_ttl" ∧
    handleRegister aN ip op = .err "bad_namespace" ∧
    handleRegister aP ip op = .err "bad_port" ∧
    handleRegister aG ip op = .ok (max 1 (min tG 86400)) ip op ∧
    (1 : Int) ≤ max 1 (min tG 86400) ∧
    max 1 (min tG 86400) ≤ 86400 := by
  refine ⟨?_, ?_, ?_, ?_, le_max_left 1 _,
    max_le (by norm_num) (le_trans (min_le_right tG 86400) (by norm_num))⟩
  · simp only [handleRegister, hT]
  · simp only [handleRegister, hN1, hN2, if_true]
  · simp only [handleRegister, hP1, hP2, hP3, Bool.false_eq_true, if_false,
      if_true]
  · simp only [handleRegister, hG1, hG2, hG3, Bool.false_eq_true, if_false]
    by_cases hr : tG < 1 ∨ tG > 86400
    · rw [if_pos hr]
    · rw [if_neg hr]
      push_neg at hr
      rw [min_eq_left hr.2, max_eq_right hr.1]

/-- C3 witness: an unparseable ttl string gives `bad_ttl`; an absent
namespace gives `bad_namespace`; a null port gives `bad_port`; a valid
request with ttl 999999 succeeds with the ttl clamped to 86400. -/
theorem register_validation_spec_witness :
    handleRegister argsT "1.2.3.4" (some 40000) = .err "bad_ttl" ∧
    handleRegister argsN "1.2.3.4" (some 40000) = .err "bad_namespace" ∧
    handleRegister argsP "1.2.3.4" (some 40000) = .err "bad_port" ∧
    handleRegister argsG "1.2.3.4" (some 40000)
      = .ok (max 1 (min 999999 86400)) "1.2.3.4" (some 40000) ∧
    (1 : Int) ≤ max 1 (min 999999 86400) ∧
    max (1 : Int) (min 999999 86400) ≤ 86400 :=
  register_validation_spec "1.2.3.4" (some 40000) argsT argsN argsP argsG
    7200 7200 999999 (by decide) rfl rfl rfl (by decide) rfl rfl
    (by decide) (by decide)

/-- C6: for every store state, DISCOVER never returns an expired record:
`get_peers` first sweeps expired records — the call's only mutation — and
the response is the projection of the surviving (optionally
namespace-filtered, where `None` and the empty string mean unfiltered)
records. -/
theorem discover_never_returns_expired (now : Datetime) (ns : Option String)
    (s : String) (db : List PeerRecord) :
    ((getPeers now ns db).1.all (fun p => !(p.isExpired now))) = true ∧
    (handleDiscover now ns db).2 = db.filter (fun p => !(p.isExpired now)) ∧
    (handleDiscover now Option.none db).1
      = (db.filter (fun p => !(p.isExpired now))).map PeerRecord.toEntry ∧
    (handleDiscover now (some s) db).1
      = (if s = "" then db.filter (fun p => !(p.isExpired now))
         else (db.filter (fun p => !(p.isExpired now))).filter
           (fun p => p.nspace = s)).map PeerRecord.toEntry := by
  refine ⟨?_, ?_, rfl, ?_⟩
  · rw [List.all_eq_true]
    intro p hp
    cases ns with
    | none =>
      exact (List.mem_filter.mp hp).2
    | some s2 =>
      simp only [getPeers, sweepDb] at hp
      by_cases hs : s2 = ""
      · rw [if_pos hs] at hp
        exact (List.mem_filter.mp hp).2
      · rw [if_neg hs] at hp
        exact (List.mem_filter.mp (List.mem_filter.mp hp).1).2
  · cases ns with
    | none => rfl
    | some s2 =>
      simp only [handleDiscover, getPeers, sweepDb]
      by_cases hs : s2 = ""
      · rw [if_pos hs]
      · rw [if_neg hs]
  · simp only [handleDiscover, getPeers, sweepDb]
    by_cases hs : s = ""
    · rw [if_pos hs, if_pos hs]
    · rw [if_neg hs, if_neg hs]

/-- C4 counterexample: `_load` catches only `json.JSONDecodeError`.  A
file whose content is valid JSON but not a list of well-formed peer
records — here the one-element array `[{"bogus": 1}]` — raises out of
`_load` (a `TypeError` from `PeerRecord(**data)`), so loading does not
degrade to an empty table and startup is blocked. -/
theorem load_valid_json_bad_shape_raises :
    loadDb (.json (.arr [.obj [("bogus", .num 1)]]))
      = .error "TypeError: unexpected keyword argument" := rfl

/-- C4 (amended): a missing file and a file whose content fails JSON
decoding both degrade to an empty table without raising; content that
decodes as JSON but is not a valid record list raises out of `_load` (see
the counterexample). -/
theorem load_degrades_for_undecodable_content :
    loadDb FileContent.missing = .ok [] ∧
    loadDb FileContent.notJson = .ok [] :=
  ⟨rfl, rfl⟩

theorem parsePeerElement_recordToJson (r : PeerRecord) :
    parsePeerElement (recordToJson r) = .ok r := by
  have hts : parseTimestampJson (.str r.timestamp.isoformat)
      = .ok r.timestamp := by
    unfold parseTimestampJson
    simp only [endsWithZ_isoformat, Bool.false_eq_true, if_false]
    rw [Datetime.fromisoformat_isoformat]
  cases hop : r.observed_port with
  | none =>
    have hstep : parsePeerElement (recordToJson r)
        = (match parseTimestampJson (.str r.timestamp.isoformat),
             parseObservedPort .null with
           | .ok d, .ok o =>
             .ok ⟨r.ip, r.port, r.name, r.nspace, r.ttl, d, r.observed_ip, o⟩
           | .error e, _ => .error e
           | _, .error e => .error e) := by
      unfold recordToJson
      rw [hop]
      rfl
    rw [hstep, hts]
    show Except.ok
        (⟨r.ip, r.port, r.name, r.nspace, r.ttl, r.timestamp, r.observed_ip,
          Option.none⟩ : PeerRecord) = .ok r
    rw [← hop]
  | some n =>
    have hstep : parsePeerElement (recordToJson r)
        = (match parseTimestampJson (.str r.timestamp.isoformat),
             parseObservedPort (.num n) with
           | .ok d, .ok o =>
             .ok ⟨r.ip, r.port, r.name, r.nspace, r.ttl, d, r.observed_ip, o⟩
           | .error e, _ => .error e
           | _, .error e => .error e) := by
      unfold recordToJson
      rw [hop]
      rfl
    rw [hstep, hts]
    show Except.ok
        (⟨r.ip, r.port, r.name, r.nspace, r.ttl, r.timestamp, r.observed_ip,
          some n⟩ : PeerRecord) = .ok r
    rw [← hop]

theorem parseAllElements_map (l : List PeerRecord) :
    parseAllElements (l.map recordToJson) = .ok l := by
  induction l with
  | nil => rfl
  | cons r rest ih =>
    simp only [List.map_cons, parseAllElements, parsePeerElement_recordToJson,
      ih]

/-- C8: saving a record table and loading it back reproduces the table —
in particular the same list of (ip, port, name, namespace, ttl) tuples —
with each timestamp serialized as its string form on save and parsed back
to a datetime on load. -/
theorem save_load_roundtrip (db : List PeerRecord) :
    loadDb (saveDb db) = .ok db ∧
    (loadDb (saveDb db)).toOption.map
        (List.map (fun r => (r.ip, r.port, r.name, r.nspace, r.ttl)))
      = some (db.map (fun r => (r.ip, r.port, r.name, r.nspace, r.ttl))) := by
  have h : loadDb (saveDb db) = .ok db := parseAllElements_map db
  exact ⟨h, by rw [h]; rfl⟩

end PyP2P
